import Mathlib

/-!
# Verification of the Claude-Code → OpenRouter proxy translation engine

This development is a shallow embedding, in Lean 4, of the proxy server of
this repository (the Bun/TypeScript `server.ts`, shipped in the repository
and included verbatim in `src/README.md`; the older Cloudflare-Workers
variants `src/worker.js` and `src/unnamed/part_000` share most of the code).

Modelling conventions, chosen once and used throughout:

* JavaScript strings are `String`; absent/`undefined` string-valued fields
  are either `Option String` or the empty string when the source only ever
  tests them for truthiness (`x || y`).
* Arbitrary JSON values that the source only moves around or serializes are
  `JVal`: either a JSON string (`jstr`) or any non-string JSON value carried
  together with its `JSON.stringify` serialization (`jraw`).  The only
  operations the source performs on such values are `typeof v === "string"`
  (the `jstr`/`jraw` distinction) and `JSON.stringify` (the carried string).
* `crypto.randomUUID()` (and the `Math.random` response-id tag) is modelled
  as a deterministic fresh-name supply threaded through the translation as a
  `Nat` counter; the source relies on no property of the generated ids
  except that they are some string.
* Numeric environment knobs that the source reads with `Number(...)` are
  modelled as rationals (every finite JS number is a rational; no verified
  claim depends on rounding of float arithmetic).
-/

/-- A JSON value as the source manipulates it: either a JSON string, or any
non-string JSON value carried with its `JSON.stringify` serialization. -/
inductive JVal where
  | jstr (s : String)
  | jraw (repr : String)
  deriving Repr, DecidableEq

/-- Mirrors `typeof v === "string" ? v : JSON.stringify(v)` — the idiom used all
over the source to turn a polymorphic payload into text. -/
def JVal.toText : JVal → String
  | .jstr s => s
  | .jraw r => r

/-- Mirrors `JSON.stringify(v)` for a `JVal` (strings get quoted; inner-quote
escaping is not modelled, no claim depends on it). -/
def JVal.serialize : JVal → String
  | .jstr s => "\"" ++ s ++ "\""
  | .jraw r => r

/-- The object `\x7b"include":true\x7d` pushed as `usage: { include: true }`. -/
def usageIncludeJ : JVal := .jraw "\x7b\"include\":true\x7d"

/-- The object `\x7b effort: e \x7d` attached as `reasoning` for `:thinking`
models. -/
def effortJ (e : String) : JVal := .jraw ("\x7b\"effort\":\"" ++ e ++ "\"\x7d")

/-- An entry of an Anthropic message's `content` array.  `nullb` stands for
a falsy array entry (`null`/`undefined`), `strB` for a bare string entry,
`other` for any block shape the source does not recognize (carried with its
`JSON.stringify` serialization).  In `toolUse`/`toolResult`, string fields
use `""` for absent (the source only tests them with `||`). -/
inductive ContentBlock where
  | nullb
  | strB (s : String)
  | text (t : JVal)
  | toolUse (id : String) (name : String) (input : Option JVal)
  | toolResult (toolUseId : String) (blockId : String)
      (output : Option JVal) (content : Option JVal)
  | other (repr : String)
  deriving Repr, DecidableEq

/-- Mirrors `JSON.stringify(block)` for an unrecognized-in-context block.  The
precise serialization of structured blocks never matters to any claim; it is
a total canonical form built from the fields. -/
def ContentBlock.stringify : ContentBlock → String
  | .nullb => "null"
  | .strB s => "\"" ++ s ++ "\""
  | .text t => "\x7b\"type\":\"text\",\"text\":" ++ t.serialize ++ "\x7d"
  | .toolUse id name input =>
      "\x7b\"type\":\"tool_use\",\"id\":\"" ++ id ++ "\",\"name\":\"" ++ name
        ++ "\",\"input\":" ++ (input.map JVal.serialize).getD "" ++ "\x7d"
  | .toolResult tid bid output content =>
      "\x7b\"type\":\"tool_result\",\"tool_use_id\":\"" ++ tid ++ "\",\"id\":\""
        ++ bid ++ "\",\"output\":" ++ (output.map JVal.serialize).getD ""
        ++ ",\"content\":" ++ (content.map JVal.serialize).getD "" ++ "\x7d"
  | .other r => r

/-- A message's polymorphic `content`: a bare string, an array of blocks, a
single block object, or a nullish value. -/
inductive AContent where
  | str (s : String)
  | blocks (bs : List ContentBlock)
  | single (b : ContentBlock)
  | nullc
  deriving Repr, DecidableEq

/-- JS truthiness of a content value (`if (b.system) ...`): empty string and
nullish are falsy; arrays and objects are truthy. -/
def AContent.truthy : AContent → Bool
  | .str s => s ≠ ""
  | .blocks _ => true
  | .single _ => true
  | .nullc => false

/-- One element of the `content.map(...)` inside `extractText`'s array
branch. -/
def extractTextBlock : ContentBlock → String
  | .nullb => ""
  | .strB s => s
  | .text t =>
      match t with
      | .jstr s => s
      | .jraw _ => (ContentBlock.text t).stringify
  | .toolUse id name input =>
      match input with
      | some v => v.toText
      | none => (ContentBlock.toolUse id name none).stringify
  | .toolResult tid bid output content =>
      match output with
      | some v => v.toText
      | none => (ContentBlock.toolResult tid bid none content).stringify
  | .other r => r

/-- Mirrors `extractText(content)` — the Content Normalizer: total extraction of
plain text from the polymorphic content representation. -/
def extractText : AContent → String
  | .str s => s
  | .blocks bs => String.intercalate "\n" (bs.map extractTextBlock)
  | .single b => extractTextBlock b
  | .nullc => ""

/-- One entry of the Anthropic `messages` array.  `m.role || "user"` is
applied at use sites. -/
structure AMessage where
  role : String
  content : AContent
  deriving Repr, DecidableEq

/-- An Anthropic tool declaration `\x7bname, description?, input_schema?\x7d`
(`""` stands for an absent description, only ever read as
`t.description || ""`). -/
structure ATool where
  name : String
  description : String := ""
  input_schema : Option JVal := none
  deriving Repr, DecidableEq

/-- The parsed Anthropic-shaped request body.  `model` uses `""` for absent
(the source reads it as `b.model || default`); `extra` carries the open set
of remaining JSON fields of the body, from which the passthrough allow-list
copies. -/
structure AnthropicRequest where
  model : String := ""
  system : Option AContent := none
  messages : List AMessage := []
  tools : List ATool := []
  temperature : Option JVal := none
  max_tokens : Option Nat := none
  stream : Bool := false
  extra : List (String × JVal) := []
  deriving Repr, DecidableEq

/-- An upstream tool-call entry
`\x7bid, type:"function", function:\x7bname, arguments\x7d\x7d`. -/
structure ToolCall where
  id : String
  name : String
  arguments : String
  deriving Repr, DecidableEq

/-- A message of the OpenRouter-shaped `messages` array.  Absent JS object
properties are `none` / `[]` (for `tool_calls`). -/
structure ORMessage where
  role : String
  content : Option String := none
  tool_calls : List ToolCall := []
  tool_call_id : Option String := none
  name : Option String := none
  deriving Repr, DecidableEq

/-- Builds `\x7brole:"system", content\x7d`. -/
def mkSystem (c : String) : ORMessage := { role := "system", content := some c }

/-- Builds `\x7brole:"user", content\x7d`. -/
def mkUser (c : String) : ORMessage := { role := "user", content := some c }

/-- An OpenAI-shaped tool declaration (the `function` part). -/
structure ORTool where
  name : String
  description : String
  parameters : JVal
  deriving Repr, DecidableEq

/-- The default open-object schema used when `input_schema` is absent. -/
def defaultSchema : JVal :=
  .jraw "\x7b\"type\":\"object\",\"properties\":\x7b\x7d,\"additionalProperties\":true\x7d"

/-- Mirrors `mapToolsAnthropicToOpenAI`. -/
def mapToolsAnthropicToOpenAI (tools : List ATool) : List ORTool :=
  tools.map fun t =>
    { name := t.name
      description := t.description
      parameters := t.input_schema.getD defaultSchema }

/-- Set a dynamic JSON field on an object, JS-style: update the existing
key in place, otherwise append (`out[k] = v`). -/
def setField : List (String × JVal) → String → JVal → List (String × JVal)
  | [], k, v => [(k, v)]
  | (k', v') :: rest, k, v =>
      if k' = k then (k, v) :: rest else (k', v') :: setField rest k v

/-- Read a dynamic JSON field (`obj[k]`, `none` = `undefined`). -/
def getField (fs : List (String × JVal)) (k : String) : Option JVal :=
  fs.lookup k

/-- The OpenRouter-shaped payload built by the request translator.
`fields` holds the dynamic JSON fields that the source sets by plain
property assignment: `usage`, the derived `reasoning`, and the passthrough
allow-list copies. -/
structure ORPayload where
  model : String
  messages : List ORMessage
  temperature : JVal
  max_tokens : Nat
  tools : Option (List ORTool) := none
  stream : Bool := false
  fields : List (String × JVal) := []
  deriving Repr, DecidableEq

/-- Models `crypto.randomUUID()` as a deterministic fresh-name supply. -/
def freshId (n : Nat) : String × Nat := (s!"uuid-{n}", n + 1)

/-- JS `String.prototype.trim()`, re-implemented structurally on the
character list (the library `String.trim` is not kernel-reducible; the
behavior — strip leading and trailing whitespace — is the same). -/
def jsTrim (s : String) : String :=
  ⟨((s.data.dropWhile Char.isWhitespace).reverse.dropWhile Char.isWhitespace).reverse⟩

/-- JS `String.prototype.includes(pat)`, structurally: some tail of the
string starts with `pat`. -/
def jsIncludes (s pat : String) : Bool :=
  s.data.tails.any (fun t => pat.data.isPrefixOf t)

/-- JS `String.prototype.startsWith(pre)`, structurally. -/
def jsStartsWith (s pre : String) : Bool :=
  pre.data.isPrefixOf s.data

/-- Accumulator pass over an assistant turn's content array: collect the
concatenated text and the `tool_calls`, threading the fresh-id counter.
Mirrors the `role === "assistant"` block loop of `toOpenRouterPayload`. -/
def assistantAcc : List ContentBlock → String → List ToolCall → Nat →
    String × List ToolCall × Nat
  | [], txt, tcs, n => (txt, tcs, n)
  | .nullb :: rest, txt, tcs, n => assistantAcc rest txt tcs n
  | .strB s :: rest, txt, tcs, n =>
      -- a bare "" entry is falsy (`if (!block) continue`); other strings
      -- fall to the `else` branch and are stringified
      if s = "" then assistantAcc rest txt tcs n
      else assistantAcc rest (txt ++ (ContentBlock.strB s).stringify ++ "\n") tcs n
  | .text t :: rest, txt, tcs, n =>
      assistantAcc rest (txt ++ t.toText ++ "\n") tcs n
  | .toolUse id name input :: rest, txt, tcs, n =>
      let (callId, n') := if id = "" then freshId n else (id, n)
      let nm := if name = "" then "tool" else name
      let args := (input.getD (.jraw "\x7b\x7d")).toText
      assistantAcc rest txt (tcs ++ [⟨callId, nm, args⟩]) n'
  | b :: rest, txt, tcs, n =>
      assistantAcc rest (txt ++ b.stringify ++ "\n") tcs n

/-- A buffered `\x7brole:"tool", tool_call_id, content\x7d` message built
from a user turn's `tool_result` block, before anchor validation. -/
structure PendingTool where
  tool_call_id : String
  content : String
  deriving Repr, DecidableEq

/-- Accumulator pass over a user turn's content array: collect the user
text and the pending tool messages, threading the fresh-id counter.
Mirrors the `role === "user"` block loop of `toOpenRouterPayload`. -/
def userAcc : List ContentBlock → String → List PendingTool → Nat →
    String × List PendingTool × Nat
  | [], txt, pend, n => (txt, pend, n)
  | .nullb :: rest, txt, pend, n => userAcc rest txt pend n
  | .strB s :: rest, txt, pend, n =>
      if s = "" then userAcc rest txt pend n
      else userAcc rest (txt ++ (ContentBlock.strB s).stringify ++ "\n") pend n
  | .text t :: rest, txt, pend, n =>
      userAcc rest (txt ++ t.toText ++ "\n") pend n
  | .toolResult tid bid output content :: rest, txt, pend, n =>
      let (callId, n') :=
        if tid = "" then (if bid = "" then freshId n else (bid, n)) else (tid, n)
      let out := ((output.or content).getD (.jstr "")).toText
      userAcc rest txt (pend ++ [⟨callId, out⟩]) n'
  | b :: rest, txt, pend, n =>
      userAcc rest (txt ++ b.stringify ++ "\n") pend n

/-- The backward anchor scan: from the end of the already-built upstream
message list, find the index of the most recent assistant message carrying
tool calls, skipping only `tool` and (tool-call-free) `assistant` messages;
any other role ends the scan without an anchor. -/
def findAnchorAux : List (Nat × ORMessage) → Option Nat
  | [] => none
  | (i, m) :: rest =>
      if m.role = "assistant" ∧ m.tool_calls ≠ [] then some i
      else if m.role ≠ "tool" ∧ m.role ≠ "assistant" then none
      else findAnchorAux rest

/-- Mirrors `prevAssistantIdx` of the source's backward `for` loop (`none` = `-1`). -/
def findAnchor (msgs : List ORMessage) : Option Nat :=
  findAnchorAux msgs.enum.reverse

/-- JS `Map.set` on an association list: overwrite the existing binding,
else append. -/
def setAssoc {α : Type} : List (String × α) → String → α → List (String × α)
  | [], k, v => [(k, v)]
  | (k', v') :: rest, k, v =>
      if k' = k then (k, v) :: rest else (k', v') :: setAssoc rest k v

/-- JS `Map.get` on an association list. -/
def getAssoc {α : Type} (m : List (String × α)) (k : String) : Option α :=
  m.lookup k

/-- The valid/invalid split of a user turn's buffered tool messages against
the anchor's tool-call id list: valid ones land in a `Map` keyed by id
(later results overwrite earlier ones with the same id), invalid ones are
collected in arrival order. -/
def splitValid (toolIds : List String) (pend : List PendingTool) :
    List (String × PendingTool) × List PendingTool :=
  pend.foldl
    (fun acc tm =>
      if toolIds.contains tm.tool_call_id then
        (setAssoc acc.1 tm.tool_call_id tm, acc.2)
      else (acc.1, acc.2 ++ [tm]))
    ([], [])

/-- The state threaded through the conversation loop: the upstream messages
built so far and the fresh-id counter. -/
structure TransState where
  msgs : List ORMessage
  ctr : Nat
  deriving Repr, DecidableEq

/-- Process one Anthropic conversation message, mirroring the body of the
`for (const m of b.messages)` loop of `toOpenRouterPayload` in `server.ts`.
Note two quirks of that source, both modelled faithfully:
* non-array content and roles other than assistant/user are silently
  dropped (the loop has no `else` branches for them);
* in the user branch, when tool results were buffered and an anchor was
  found, the turn ends with `continue` right after computing the folded
  text of the invalid results — so that folded text, and the turn's own
  user text, are discarded. -/
def processMessage (st : TransState) (m : AMessage) : TransState :=
  let role := if m.role = "" then "user" else m.role
  match m.content with
  | .blocks content =>
    if role = "assistant" then
      let assistantText := (assistantAcc content "" [] st.ctr).1
      let tool_calls := (assistantAcc content "" [] st.ctr).2.1
      let n' := (assistantAcc content "" [] st.ctr).2.2
      let amsg : ORMessage :=
        { role := "assistant"
          content := if jsTrim assistantText ≠ "" then some (jsTrim assistantText) else none
          tool_calls := tool_calls }
      if amsg.content.isSome ∨ amsg.tool_calls ≠ [] then
        { msgs := st.msgs ++ [amsg], ctr := n' }
      else
        { msgs := st.msgs, ctr := n' }
    else if role = "user" then
      let userText := (userAcc content "" [] st.ctr).1
      let pendingToolMsgs := (userAcc content "" [] st.ctr).2.1
      let n' := (userAcc content "" [] st.ctr).2.2
      let prevAssistantIdx := findAnchor st.msgs
      match prevAssistantIdx with
      | some i =>
        if pendingToolMsgs ≠ [] then
          let prevAssistant := (st.msgs.get? i).getD { role := "" }
          let toolIds := (prevAssistant.tool_calls.map (·.id)).filter (· ≠ "")
          let idToName := prevAssistant.tool_calls.foldl
            (fun m tc => setAssoc m tc.id
              (if tc.name = "" then "tool" else tc.name)) []
          let validById := (splitValid toolIds pendingToolMsgs).1
          let invalidTools := (splitValid toolIds pendingToolMsgs).2
          let orderedValidTools : List ORMessage :=
            (toolIds.filter (fun id => (getAssoc validById id).isSome)).map
              (fun id =>
                let tm := (getAssoc validById id).getD ⟨id, ""⟩
                { role := "tool"
                  tool_call_id := some tm.tool_call_id
                  name := some ((getAssoc idToName id).getD "tool")
                  content := some tm.content })
          let msgs' :=
            if orderedValidTools ≠ [] then
              st.msgs.take (i + 1) ++ orderedValidTools ++ st.msgs.drop (i + 1)
            else st.msgs
          -- the source appends the folded invalid results to `userText`
          -- here, then `continue`s: the folded text is dead
          let _folded :=
            if invalidTools ≠ [] then
              userText ++ "\n\n[tool_result]\n" ++
                String.intercalate "\n"
                  (invalidTools.map fun t =>
                    "id=" ++ t.tool_call_id ++ " content=" ++ t.content)
            else userText
          { msgs := msgs', ctr := n' }
        else
          let trimmed := jsTrim userText
          if trimmed ≠ "" then { msgs := st.msgs ++ [mkUser trimmed], ctr := n' }
          else { msgs := st.msgs, ctr := n' }
      | none =>
        let trimmed := jsTrim userText
        if trimmed ≠ "" then { msgs := st.msgs ++ [mkUser trimmed], ctr := n' }
        else { msgs := st.msgs, ctr := n' }
    else st
  | _ => st

/-- The post-normalization inner `while`: walk the messages following an
assistant-with-tool-calls, keep matching `tool` messages, drop `user`
messages seen before any matching tool message, and stop at anything
else. -/
def scrubAfterAssistant (toolIds : List String) :
    List ORMessage → Bool → List ORMessage
  | [], _ => []
  | mj :: rest, seen =>
      if mj.role = "tool" ∧ toolIds.contains ((mj.tool_call_id).getD "") then
        mj :: scrubAfterAssistant toolIds rest true
      else if mj.role = "user" ∧ seen = false then
        scrubAfterAssistant toolIds rest seen
      else mj :: rest

/-- The post-normalization outer pass, structurally recursive on a fuel
bound: for every assistant message with tool calls, scrub the spurious user
messages that follow it before its tool messages.  The scrub never grows
the list, so fuel equal to the list length makes the fueled recursion
coincide with the source's index loop. -/
def postNormalizeFuel : Nat → List ORMessage → List ORMessage
  | 0, l => l
  | _ + 1, [] => []
  | fuel + 1, m :: rest =>
      if m.role = "assistant" ∧ m.tool_calls ≠ [] then
        let toolIds := (m.tool_calls.map (·.id)).filter (· ≠ "")
        m :: postNormalizeFuel fuel (scrubAfterAssistant toolIds rest false)
      else m :: postNormalizeFuel fuel rest

/-- The post-normalization pass over the built message list. -/
def postNormalize (l : List ORMessage) : List ORMessage :=
  postNormalizeFuel l.length l

/-- The message-building part of `toOpenRouterPayload`: the optional system
message, the conversation loop, then the post-normalization pass. -/
def buildMessages (b : AnthropicRequest) : List ORMessage × Nat :=
  let init : TransState :=
    { msgs :=
        match b.system with
        | some sys => if sys.truthy then [mkSystem (extractText sys)] else []
        | none => []
      ctr := 0 }
  let st := b.messages.foldl processMessage init
  (postNormalize st.msgs, st.ctr)

/-- The environment/configuration snapshot the server reads.  String knobs
use `""` for unset (the source reads them with `|| ""` / truthiness);
`PROXY_TOKEN` keeps its possible `undefined` (the source compares it with
strict `!==`); `MODEL_MAP_EXT`/`MODEL_MAP_AUTO` are the parsed JSON alias
objects (extension mapping and the auto-loaded `model-map.json`). -/
structure Config where
  OPENROUTER_API_KEY : String := ""
  REQUIRE_PROXY_TOKEN : String := ""
  PROXY_TOKEN : Option String := none
  MODEL_MAP_EXT : List (String × String) := []
  MODEL_MAP_AUTO : List (String × String) := []
  FORCE_MODEL : String := ""
  PRIMARY_MODEL : String := ""
  FALLBACK_MODEL : String := ""
  REASONING_EFFORT : String := ""
  ESTIMATE_USAGE : String := ""
  ESTIMATE_TOKENS_PER_CHAR : Option ℚ := none
  PRICING_JSON : List (String × (ℚ × ℚ)) := []
  deriving DecidableEq

/-- The pass-through marker used by the built-in legacy table. -/
def modelDemande : String := "$modeldemandé"

/-- Mirrors `MODEL_MAP_BASE`: the built-in table of legacy Anthropic model names,
every entry marked "pass through as requested". -/
def MODEL_MAP_BASE : List (String × String) :=
  [("claude-3-5-haiku-20241022", modelDemande),
   ("claude-3-7-sonnet-latest", modelDemande),
   ("claude-3-7-sonnet-20250219", modelDemande),
   ("claude-3-opus-20240229", modelDemande)]

/-- Association-list read with JS `obj[id]` semantics (`""` models a falsy
looked-up value as well as `undefined`, matching the source's truthy
tests). -/
def lookupStr (m : List (String × String)) (id : String) : String :=
  (m.lookup id).getD ""

/-- Mirrors `mapModel(id)`: the layered model resolver — force override, extension
map, auto-loaded map, built-in legacy table (whose entries are pass-through
markers), identity fallback. -/
def mapModel (cfg : Config) (id : String) : String :=
  if jsTrim cfg.FORCE_MODEL ≠ "" then jsTrim cfg.FORCE_MODEL
  else if lookupStr cfg.MODEL_MAP_EXT id ≠ "" then lookupStr cfg.MODEL_MAP_EXT id
  else if lookupStr cfg.MODEL_MAP_AUTO id ≠ "" then lookupStr cfg.MODEL_MAP_AUTO id
  else if lookupStr MODEL_MAP_BASE id = modelDemande then id
  else if lookupStr MODEL_MAP_BASE id ≠ "" then lookupStr MODEL_MAP_BASE id
  else id

/-- The fixed allow-list of passthrough fields copied verbatim from the
request body into the upstream payload. -/
def passthroughKeys : List String :=
  ["plugins", "transforms", "web_search_options", "models", "provider",
   "reasoning", "usage", "top_p", "top_k", "frequency_penalty",
   "presence_penalty", "repetition_penalty", "seed", "logit_bias",
   "response_format", "user"]

/-- The dynamic fields of the payload after its construction and the
`:thinking` reasoning logic, before the passthrough copies: `usage` is
`\x7binclude:true\x7d`, and `reasoning` is the derived effort object when
the requested model carries the `:thinking` marker. -/
def basePayloadFields (cfg : Config) (reqModel : String) : List (String × JVal) :=
  let fields0 : List (String × JVal) := [("usage", usageIncludeJ)]
  if jsIncludes reqModel ":thinking" then
    setField fields0 "reasoning"
      (effortJ (if cfg.REASONING_EFFORT ≠ "" then cfg.REASONING_EFFORT else "medium"))
  else fields0

/-- One step of the passthrough copy loop:
`if (b[k] !== undefined) out[k] = b[k]`. -/
def passStep (extra : List (String × JVal)) (fs : List (String × JVal))
    (k : String) : List (String × JVal) :=
  match extra.lookup k with
  | some v => setField fs k v
  | none => fs

/-- Mirrors `toOpenRouterPayload(b, request, env, mapModel)` — the request
translator.  `xOrModelHeader` is the value of the per-request `x-or-model`
override header (`""` = absent). -/
def toOpenRouterPayload (cfg : Config) (xOrModelHeader : String)
    (b : AnthropicRequest) : ORPayload :=
  let messagesOut := (buildMessages b).1
  let toolsOA := mapToolsAnthropicToOpenAI b.tools
  let reqModel := if b.model ≠ "" then b.model else "anthropic/claude-3.7-sonnet"
  let mappedModel := mapModel cfg reqModel
  let fields1 := basePayloadFields cfg reqModel
  let model1 := if xOrModelHeader ≠ "" then jsTrim xOrModelHeader else mappedModel
  let model2 := if jsTrim cfg.PRIMARY_MODEL ≠ "" then jsTrim cfg.PRIMARY_MODEL else model1
  let fields2 := passthroughKeys.foldl (passStep b.extra) fields1
  { model := model2
    messages := messagesOut
    temperature := b.temperature.getD (.jraw "0.2")
    max_tokens := b.max_tokens.getD 1024
    tools := if toolsOA ≠ [] then some toolsOA else none
    stream := false
    fields := fields2 }

/-- Mirrors `tokensPerChar(env)`: the configurable tokens-per-character ratio,
falling back to 0.25 when unset or not a positive finite number. -/
def tokensPerChar (cfg : Config) : ℚ :=
  match cfg.ESTIMATE_TOKENS_PER_CHAR with
  | none => 1 / 4
  | some v => if 0 < v then v else 1 / 4

/-- Mirrors `countTokensApprox`: `Math.max(0, Math.floor(length × ratio))`. -/
def countTokensApprox (q : ℚ) (text : String) : Nat :=
  (max 0 (Int.floor ((text.length : ℚ) * q))).toNat

/-- Mirrors `shouldEstimateUsage(env)`: `String(env.ESTIMATE_USAGE || "1") === "1"`. -/
def shouldEstimateUsage (cfg : Config) : Bool :=
  (if cfg.ESTIMATE_USAGE = "" then "1" else cfg.ESTIMATE_USAGE) = "1"

/-- The text pieces one content block contributes to the prompt-token
estimate (text blocks always; tool-result output only in user turns). -/
def estimateBlockPieces (role : String) : ContentBlock → List String
  | .text t => [t.toText]
  | .toolResult _ _ output content =>
      if role = "user" then [((output.or content).getD (.jstr "")).toText] else []
  | _ => []

/-- Mirrors `estimatePromptTokensFromAnthropic(b, env)`: walk system text, message
text blocks and user tool-result outputs, join with newlines, apply the
character-based estimate. -/
def estimatePromptTokensFromAnthropic (cfg : Config) (b : AnthropicRequest) : Nat :=
  let sysPieces : List String :=
    match b.system with
    | some sys => if sys.truthy then [extractText sys] else []
    | none => []
  let msgPieces : List String := b.messages.foldl
    (fun acc m =>
      let role := if m.role = "" then "user" else m.role
      match m.content with
      | .blocks bs => acc ++ bs.foldl (fun a blok => a ++ estimateBlockPieces role blok) []
      | c => acc ++ [extractText c])
    []
  countTokensApprox (tokensPerChar cfg) (String.intercalate "\n" (sysPieces ++ msgPieces))

/-- Mirrors `estimateOutputTokensFromText(text, env)`. -/
def estimateOutputTokensFromText (cfg : Config) (text : String) : Nat :=
  countTokensApprox (tokensPerChar cfg) text

/-- The `content` of an upstream choice's message: a string, an array of
string-or-object entries, or some other JSON value. -/
inductive RContent where
  | str (s : String)
  | arr (xs : List JVal)
  | other (repr : String)
  deriving Repr, DecidableEq

/-- The normalization of `msg.content ?? ""` to text used by the response
translator: strings pass through, arrays map entries to text and join with
newline, anything else serializes. -/
def rcontentText : Option RContent → String
  | none => ""
  | some (.str s) => s
  | some (.arr xs) => String.intercalate "\n" (xs.map JVal.toText)
  | some (.other r) => r

/-- A tool-call's `function.arguments` in an upstream response: a string
payload carried with its `JSON.parse` outcome, or a truthy non-string JSON
value (a falsy non-string — `null`/`0`/`false` — behaves like an absent one
and is modelled by `none` at the use site). -/
inductive ArgVal where
  | strv (s : String) (parsed : Option JVal)
  | jsonv (v : JVal)
  deriving Repr, DecidableEq

/-- An upstream response tool call (`""` = absent for `id` and
`function?.name`, which the source reads with `||`). -/
structure ORToolCallResp where
  id : String := ""
  name : String := ""
  arguments : Option ArgVal := none
  deriving Repr, DecidableEq

/-- The first upstream choice's `message`. -/
structure ORRespMessage where
  content : Option RContent := none
  tool_calls : List ORToolCallResp := []
  deriving Repr, DecidableEq

/-- An upstream choice. -/
structure ORChoice where
  message : Option ORRespMessage := none
  deriving Repr, DecidableEq

/-- The upstream `usage` object (`cached_tokens` stands for
`prompt_tokens_details?.cached_tokens`). -/
structure ORUsage where
  prompt_tokens : Option Int := none
  completion_tokens : Option Int := none
  input_tokens : Option Int := none
  output_tokens : Option Int := none
  cached_tokens : Option Int := none
  cost : Option ℚ := none
  upstream_inference_cost : Option ℚ := none
  deriving Repr, DecidableEq

/-- The parsed upstream JSON response (`""` = absent for `id`/`model`). -/
structure ORJson where
  id : String := ""
  model : String := ""
  choices : List ORChoice := []
  usage : Option ORUsage := none
  deriving Repr, DecidableEq

/-- The Anthropic-shaped `usage` object. -/
structure Usage where
  input_tokens : Int
  output_tokens : Int
  cache_creation_input_tokens : Int
  cache_read_input_tokens : Int
  deriving Repr, DecidableEq

/-- Mirrors `mapUsageFromOpenRouter(orUsage)`: `prompt_tokens ?? input_tokens ?? 0`
to input, `completion_tokens ?? output_tokens ?? 0` to output, cached
prompt tokens to `cache_read_input_tokens`, cache writes always 0. -/
def mapUsageFromOpenRouter (u : ORUsage) : Usage :=
  { input_tokens := (u.prompt_tokens.or u.input_tokens).getD 0
    output_tokens := (u.completion_tokens.or u.output_tokens).getD 0
    cache_creation_input_tokens := 0
    cache_read_input_tokens := u.cached_tokens.getD 0 }

/-- A `tool_use` block's `input` in the translated response. -/
inductive InputVal where
  | parsed (v : JVal)
  | rawFallback (s : String)
  | emptyObj
  deriving Repr, DecidableEq

/-- A content block of the translated Anthropic-shaped response. -/
inductive OutBlock where
  | text (t : String)
  | toolUse (id : String) (name : String) (input : InputVal)
  deriving Repr, DecidableEq

/-- The `tool_calls.map(...)` of the response translator: each upstream
tool call becomes a `tool_use` block (id passthrough or fresh, name
defaulted to `"tool"`, arguments parsed with the `\x7b_raw: ...\x7d`
fallback), threading the fresh-id counter. -/
def mapToolCalls : List ORToolCallResp → Nat → List OutBlock × Nat
  | [], n => ([], n)
  | tc :: rest, n =>
      let (id, n₁) := if tc.id = "" then freshId n else (tc.id, n)
      let name := if tc.name = "" then "tool" else tc.name
      let input : InputVal :=
        match tc.arguments with
        | none => .emptyObj
        | some (.strv _ (some v)) => .parsed v
        | some (.strv s none) => .rawFallback s
        | some (.jsonv v) => .parsed v
      let (bs, n₂) := mapToolCalls rest n₁
      (OutBlock.toolUse id name input :: bs, n₂)

/-- The translated Anthropic-shaped response body (`msg_type` is the wire
field `type`, fixed to `"message"`; the diagnostic `proxy_meta` echo and the
`X-OR-*` header strings are presentation-only formatting of the same
numbers and are not modelled). -/
structure AnthropicResponse where
  id : String
  msg_type : String
  role : String
  model : String
  content : List OutBlock
  stop_reason : String
  usage : Usage
  deriving Repr, DecidableEq

/-- Mirrors `computeCostUSD(usageAnthropic, model, pricing)`: `(total, in, out)`
cost, `none` when the model has no pricing entry. -/
def computeCostUSD (usage : Usage) (model : String)
    (pricing : List (String × (ℚ × ℚ))) : Option (ℚ × ℚ × ℚ) :=
  match pricing.lookup model with
  | none => none
  | some (pin, pout) =>
      let inCost := ((usage.input_tokens : ℚ) / 1000) * pin
      let outCost := ((usage.output_tokens : ℚ) / 1000) * pout
      some (inCost + outCost, inCost, outCost)

/-- Mirrors `toAnthropicResponse(orjson, payload, durationMs, env, mapModel,
inputTokensEstimate)` — the response translator.  `n` is the fresh-id
counter. -/
def toAnthropicResponse (cfg : Config) (orjson : ORJson) (payload : ORPayload)
    (inputTokensEstimate : Int) (n : Nat) : AnthropicResponse × Nat :=
  let choice := orjson.choices.head?.getD {}
  let msg := choice.message.getD {}
  let text := rcontentText msg.content
  let toolUseBlocks := (mapToolCalls msg.tool_calls n).1
  let n₁ := (mapToolCalls msg.tool_calls n).2
  let blocks :=
    (if text ≠ "" ∧ jsTrim text ≠ "" then [OutBlock.text text] else []) ++ toolUseBlocks
  let hasTools := toolUseBlocks ≠ []
  let usage0 := mapUsageFromOpenRouter (orjson.usage.getD {})
  let usageAnthropic :=
    if shouldEstimateUsage cfg ∧ usage0.input_tokens = 0 ∧ usage0.output_tokens = 0 then
      { input_tokens := inputTokensEstimate
        output_tokens := (estimateOutputTokensFromText cfg text : Int)
        cache_creation_input_tokens := 0
        cache_read_input_tokens := 0 }
    else usage0
  let modelUsedRaw :=
    if orjson.model ≠ "" then orjson.model
    else if payload.model ≠ "" then payload.model else "openrouter"
  let stableModel := mapModel cfg modelUsedRaw
  let ridTag := (freshId n₁).1
  let n₂ := (freshId n₁).2
  ({ id := if orjson.id ≠ "" then orjson.id else "or_" ++ ridTag
     msg_type := "message"
     role := "assistant"
     model := stableModel
     content := if blocks ≠ [] then blocks else [OutBlock.text ""]
     stop_reason := if hasTools then "tool_use" else "end_turn"
     usage := usageAnthropic }, n₂)

/-- An inbound HTTP request as the dispatcher consumes it.  Header values
use `""` for absent (the source's `header()` helper returns `""` then).
`body` is the outcome of `await request.json()`: `none` models a JSON parse
failure (or an unreadable body). -/
structure HttpRequest where
  method : String
  path : String
  accept : String := ""
  hdrAnthropicKey : String := ""
  hdrXApiKey : String := ""
  hdrProxyToken : String := ""
  hdrXOrModel : String := ""
  body : Option AnthropicRequest := none
  deriving DecidableEq

/-- The effective client key:
`header("anthropic-api-key") || header("x-api-key") || ""`. -/
def clientKeyOf (req : HttpRequest) : String :=
  if req.hdrAnthropicKey ≠ "" then req.hdrAnthropicKey else req.hdrXApiKey

/-- The outcome of the dispatcher's credential resolution. -/
inductive AuthResult where
  | byok (key : String)
  | missingServerKey
  | forbidden
  | serverKey (key : String)
  deriving Repr, DecidableEq

/-- The auth block of the dispatcher: BYOK when the client key carries the
`sk-or-` prefix; otherwise the server key, gated by the optional
shared-secret check. -/
def resolveAuth (cfg : Config) (req : HttpRequest) : AuthResult :=
  let clientKey := clientKeyOf req
  if clientKey ≠ "" ∧ jsStartsWith clientKey "sk-or-" then .byok clientKey
  else if cfg.OPENROUTER_API_KEY = "" then .missingServerKey
  else if (if cfg.REQUIRE_PROXY_TOKEN = "" then "0" else cfg.REQUIRE_PROXY_TOKEN) = "1"
      ∧ cfg.PROXY_TOKEN ≠ some req.hdrProxyToken then .forbidden
  else .serverKey cfg.OPENROUTER_API_KEY

/-- A response body the dispatcher can produce locally (before/without an
upstream call). -/
inductive RespBody where
  | okTrue
  | empty
  | inputTokens (n : Nat)
  | err (code : String)
  deriving Repr, DecidableEq

/-- What the dispatcher decides for a request: answer locally (`respond`,
with status, body, and whether `withCORS` wrapped it), or call upstream
with a translated payload and bearer key — on the SSE path (`streamCall`,
handing the upstream byte stream to the stream translator) or on the plain
request/response path (`plainCall`, with the §4.4 response translation and
the single fallback-model retry applied to the upstream result). -/
inductive Outcome where
  | respond (status : Nat) (body : RespBody) (cors : Bool)
  | streamCall (payload : ORPayload) (key : String)
  | plainCall (payload : ORPayload) (key : String)
  deriving Repr, DecidableEq

/-- The stream branch's flag mutation: `payload.stream = true;
payload.usage = { include: true }`. -/
def withStreamFlags (p : ORPayload) : ORPayload :=
  { p with stream := true, fields := setField p.fields "usage" usageIncludeJ }

/-- Mirrors `accept.includes("text/event-stream") || body.stream === true`. -/
def wantsStream (req : HttpRequest) (b : AnthropicRequest) : Bool :=
  jsIncludes req.accept "text/event-stream" ∨ b.stream

/-- The dispatcher's per-request lifecycle, up to the upstream call: route
(health, CORS preflight, count-tokens, main endpoint, not-found), then
auth, then body parse, then branch selection (stream vs non-stream) with
the translated payload. -/
def dispatch (cfg : Config) (req : HttpRequest) : Outcome :=
  if req.path = "/health" then .respond 200 .okTrue true
  else if req.method = "OPTIONS" then .respond 204 .empty true
  else if req.method = "POST" ∧ req.path = "/v1/messages/count_tokens" then
    match req.body with
    | some b => .respond 200 (.inputTokens (estimatePromptTokensFromAnthropic cfg b)) true
    | none => .respond 400 (.err "invalid_json") true
  else if req.method ≠ "POST" ∨ req.path ≠ "/v1/messages" then
    .respond 404 (.err "not_found") true
  else
    match resolveAuth cfg req with
    | .missingServerKey => .respond 401 (.err "missing_server_key") true
    | .forbidden => .respond 403 (.err "forbidden") true
    | .byok orKey =>
      match req.body with
      | none => .respond 400 (.err "invalid_json") true
      | some b =>
        if wantsStream req b then
          .streamCall (withStreamFlags (toOpenRouterPayload cfg req.hdrXOrModel b)) orKey
        else .plainCall (toOpenRouterPayload cfg req.hdrXOrModel b) orKey
    | .serverKey orKey =>
      match req.body with
      | none => .respond 400 (.err "invalid_json") true
      | some b =>
        if wantsStream req b then
          .streamCall (withStreamFlags (toOpenRouterPayload cfg req.hdrXOrModel b)) orKey
        else .plainCall (toOpenRouterPayload cfg req.hdrXOrModel b) orKey

/-! ## Helper lemmas -/

theorem lookup_setField_self (fs : List (String × JVal)) (k : String) (v : JVal) :
    (setField fs k v).lookup k = some v := by
  induction fs with
  | nil => simp [setField]
  | cons p rest ih =>
    obtain ⟨k', v'⟩ := p
    by_cases h : k' = k
    · simp [setField, h]
    · have h2 : (k == k') = false := beq_eq_false_iff_ne.mpr (fun hh => h hh.symm)
      simp [setField, h, List.lookup, h2, ih]

theorem lookup_setField_ne (fs : List (String × JVal)) (k k' : String) (v : JVal)
    (h : k ≠ k') : (setField fs k' v).lookup k = fs.lookup k := by
  have h2 : (k == k') = false := beq_eq_false_iff_ne.mpr h
  induction fs with
  | nil => simp [setField, List.lookup, h2]
  | cons p rest ih =>
    obtain ⟨k₀, v₀⟩ := p
    by_cases h0 : k₀ = k'
    · subst h0
      simp [setField, List.lookup, h2]
    · simp [setField, h0, List.lookup, ih]

theorem lookup_passFold_not_mem (extra : List (String × JVal)) (k : String) :
    ∀ (keys : List String) (fs : List (String × JVal)), k ∉ keys →
      (keys.foldl (passStep extra) fs).lookup k = fs.lookup k := by
  intro keys
  induction keys with
  | nil => intro fs _; rfl
  | cons k₀ rest ih =>
    intro fs hk
    have hne : k ≠ k₀ := fun h => hk (h ▸ List.mem_cons_self _ _)
    have hrest : k ∉ rest := fun h => hk (List.mem_cons_of_mem _ h)
    have : (passStep extra fs k₀).lookup k = fs.lookup k := by
      unfold passStep
      cases extra.lookup k₀ with
      | none => rfl
      | some v => exact lookup_setField_ne _ _ _ _ hne
    simpa [List.foldl_cons, this] using ih (passStep extra fs k₀) hrest

theorem lookup_passFold_mem (extra : List (String × JVal)) (k : String) (v : JVal) :
    ∀ (keys : List String) (fs : List (String × JVal)), keys.Nodup → k ∈ keys →
      extra.lookup k = some v →
      (keys.foldl (passStep extra) fs).lookup k = some v := by
  intro keys
  induction keys with
  | nil => intro fs _ hk; exact absurd hk (List.not_mem_nil _)
  | cons k₀ rest ih =>
    intro fs hnd hk hv
    rcases List.mem_cons.mp hk with heq | hmem
    · subst heq
      have hnotin : k ∉ rest := (List.nodup_cons.mp hnd).1
      have hstep : (passStep extra fs k) = setField fs k v := by
        unfold passStep; rw [hv]
      rw [List.foldl_cons, hstep,
        lookup_passFold_not_mem extra k rest _ hnotin,
        lookup_setField_self]
    · exact List.foldl_cons _ _ ▸
        ih (passStep extra fs k₀) (List.nodup_cons.mp hnd).2 hmem hv

/-! ## Claim theorems -/

/-- C10: every request whose URL path is `/health` is answered with
status 200, body `\x7b"ok": true\x7d` and CORS headers, regardless of the
HTTP method (including POST, DELETE and OPTIONS), because the health-path
check precedes both the OPTIONS-preflight check and the method/route
guard. -/
theorem health_answers_any_method (cfg : Config) (req : HttpRequest)
    (h : req.path = "/health") :
    dispatch cfg req = .respond 200 .okTrue true := by
  simp [dispatch, h]

/-- Witness: a concrete `DELETE /health` request is answered `200`
`\x7b"ok": true\x7d` with CORS. -/
theorem health_answers_any_method_witness :
    dispatch {} { method := "DELETE", path := "/health" }
      = .respond 200 .okTrue true :=
  health_answers_any_method {} { method := "DELETE", path := "/health" } rfl

/-- C5: a POST to `/v1/messages/count_tokens` with a well-formed body
is answered `\x7b"input_tokens": <int>\x7d`, and with 400
`\x7b"error":"invalid_json"\x7d` when the body fails to parse — never with
the not-found error. -/
theorem count_tokens_endpoint (cfg : Config) (req : HttpRequest)
    (hm : req.method = "POST") (hp : req.path = "/v1/messages/count_tokens") :
    (∀ b, req.body = some b →
      dispatch cfg req =
        .respond 200 (.inputTokens (estimatePromptTokensFromAnthropic cfg b)) true) ∧
    (req.body = none →
      dispatch cfg req = .respond 400 (.err "invalid_json") true) := by
  constructor
  · intro b hb
    simp [dispatch, hm, hp, hb]
  · intro hb
    simp [dispatch, hm, hp, hb]

/-- Witness: a concrete well-formed POST to the count-tokens endpoint gets
the token-count body, and one with an unparseable body gets 400. -/
theorem count_tokens_endpoint_witness :
    dispatch {} { method := "POST", path := "/v1/messages/count_tokens",
                  body := some {} }
      = .respond 200 (.inputTokens (estimatePromptTokensFromAnthropic {} {})) true ∧
    dispatch {} { method := "POST", path := "/v1/messages/count_tokens",
                  body := none }
      = .respond 400 (.err "invalid_json") true :=
  ⟨(count_tokens_endpoint {}
      { method := "POST", path := "/v1/messages/count_tokens", body := some {} }
      rfl rfl).1 {} rfl,
   (count_tokens_endpoint {}
      { method := "POST", path := "/v1/messages/count_tokens", body := none }
      rfl rfl).2 rfl⟩

/-- C7: when no resolver source matches the requested model (no force
override, no extension-map entry, no auto-loaded entry, no built-in-table
entry) and no per-request header or primary-model override is in effect,
model resolution is the identity and the upstream payload carries the
requested identifier unchanged. -/
theorem unknown_model_identity (cfg : Config) (b : AnthropicRequest)
    (hforce : jsTrim cfg.FORCE_MODEL = "")
    (hext : lookupStr cfg.MODEL_MAP_EXT b.model = "")
    (hauto : lookupStr cfg.MODEL_MAP_AUTO b.model = "")
    (hbase : lookupStr MODEL_MAP_BASE b.model = "")
    (hprimary : jsTrim cfg.PRIMARY_MODEL = "")
    (hm : b.model ≠ "") :
    mapModel cfg b.model = b.model ∧
    (toOpenRouterPayload cfg "" b).model = b.model := by
  have h1 : mapModel cfg b.model = b.model := by
    simp [mapModel, hforce, hext, hauto, hbase, modelDemande]
  refine ⟨h1, ?_⟩
  simp [toOpenRouterPayload, hm, hprimary, h1]

/-- Witness: the spec's own example id `"some-unmapped-id"`, absent from
all alias sources, passes through unchanged. -/
theorem unknown_model_identity_witness :
    mapModel {} "some-unmapped-id" = "some-unmapped-id" ∧
    (toOpenRouterPayload {} "" { model := "some-unmapped-id" }).model
      = "some-unmapped-id" :=
  unknown_model_identity {} { model := "some-unmapped-id" }
    (by decide) (by decide) (by decide) (by decide) (by decide) (by decide)

/-- C6: every allow-listed passthrough field present on the request is
copied unchanged into the upstream payload's dynamic fields; the copies run
after the model/reasoning logic, so in particular a caller-supplied
`reasoning` field overrides the `:thinking`-derived one. -/
theorem passthrough_fields_copied (cfg : Config) (hdr : String)
    (b : AnthropicRequest) (k : String) (v : JVal)
    (hk : k ∈ passthroughKeys) (hv : b.extra.lookup k = some v) :
    getField (toOpenRouterPayload cfg hdr b).fields k = some v := by
  have hnd : passthroughKeys.Nodup := by decide
  have hfields : (toOpenRouterPayload cfg hdr b).fields
      = passthroughKeys.foldl (passStep b.extra)
          (basePayloadFields cfg
            (if b.model ≠ "" then b.model else "anthropic/claude-3.7-sonnet")) := rfl
  rw [getField, hfields]
  exact lookup_passFold_mem b.extra k v passthroughKeys _ hnd hk hv

/-- Witness: a request for a `:thinking` model that also supplies its own
`reasoning` field ends up with the caller's `reasoning` value (the derived
effort object is overridden), and a `top_p` field passes through. -/
theorem passthrough_fields_copied_witness :
    getField (toOpenRouterPayload {} ""
        { model := "m:thinking",
          extra := [("reasoning", JVal.jstr "caller-reasoning"),
                    ("top_p", JVal.jraw "0.9")] }).fields "reasoning"
      = some (JVal.jstr "caller-reasoning") ∧
    getField (toOpenRouterPayload {} ""
        { model := "m:thinking",
          extra := [("reasoning", JVal.jstr "caller-reasoning"),
                    ("top_p", JVal.jraw "0.9")] }).fields "top_p"
      = some (JVal.jraw "0.9") :=
  ⟨passthrough_fields_copied {} "" _ "reasoning" _ (by decide) (by decide),
   passthrough_fields_copied {} "" _ "top_p" _ (by decide) (by decide)⟩

/-- C4: when the dispatcher reaches branch selection (main route, auth
resolved, body parsed) and the client negotiated an event-stream response
or set the stream flag, the dispatcher takes the SSE stream path — handing
the stream translator a payload built with `stream := true` (and
`usage.include`) — rather than the non-streaming request/response path. -/
theorem stream_branch_selected (cfg : Config) (req : HttpRequest)
    (b : AnthropicRequest) (orKey : String)
    (hm : req.method = "POST") (hp : req.path = "/v1/messages")
    (hb : req.body = some b)
    (hauth : resolveAuth cfg req = .byok orKey ∨ resolveAuth cfg req = .serverKey orKey)
    (hs : wantsStream req b = true) :
    dispatch cfg req =
      .streamCall (withStreamFlags (toOpenRouterPayload cfg req.hdrXOrModel b)) orKey ∧
    (withStreamFlags (toOpenRouterPayload cfg req.hdrXOrModel b)).stream = true := by
  refine ⟨?_, rfl⟩
  rcases hauth with h | h <;> simp [dispatch, hm, hp, hb, h, hs]

/-- Witness: a concrete request with `accept: text/event-stream` under a
configured server key takes the SSE branch with a `stream := true`
payload. -/
theorem stream_branch_selected_witness :
    dispatch { OPENROUTER_API_KEY := "srv" }
      { method := "POST", path := "/v1/messages",
        accept := "text/event-stream", body := some {} }
      = .streamCall (withStreamFlags (toOpenRouterPayload
          { OPENROUTER_API_KEY := "srv" } "" {})) "srv" ∧
    (withStreamFlags (toOpenRouterPayload
        { OPENROUTER_API_KEY := "srv" } "" {})).stream = true :=
  stream_branch_selected { OPENROUTER_API_KEY := "srv" }
    { method := "POST", path := "/v1/messages",
      accept := "text/event-stream", body := some {} }
    {} "srv" rfl rfl rfl (Or.inr (by decide)) (by decide)

/-- C9 counterexample: the claim quantifies over requests whose
`anthropic-api-key` *or* `x-api-key` header starts with `"sk-or-"`.  A
request whose `x-api-key` carries the prefix but whose `anthropic-api-key`
is non-empty without it is such a request, yet the dispatcher (which reads
`anthropic-api-key` first) takes the server-key path and rejects it 403
when the shared secret is required and missing. -/
theorem byok_prefix_header_cex :
    jsStartsWith "sk-or-abc" "sk-or-" = true ∧
    dispatch
      { OPENROUTER_API_KEY := "srv", REQUIRE_PROXY_TOKEN := "1",
        PROXY_TOKEN := some "secret" }
      { method := "POST", path := "/v1/messages",
        hdrAnthropicKey := "not-a-byok-key", hdrXApiKey := "sk-or-abc",
        body := some {} }
      = .respond 403 (.err "forbidden") true :=
  ⟨by decide, by decide⟩

/-- C9 amended: for every request whose *effective* client key — the
`anthropic-api-key` header if non-empty, otherwise the `x-api-key` header —
starts with `"sk-or-"`, the dispatcher uses that client key as the upstream
bearer credential and skips the shared-secret check entirely: the request
is never rejected 401 `missing_server_key` or 403 `forbidden`, for every
configuration (including `REQUIRE_PROXY_TOKEN = "1"` with an absent or
mismatched proxy token). -/
theorem byok_key_skips_auth (cfg : Config) (req : HttpRequest)
    (hm : req.method = "POST") (hp : req.path = "/v1/messages")
    (hk : jsStartsWith (clientKeyOf req) "sk-or-" = true) :
    resolveAuth cfg req = .byok (clientKeyOf req) ∧
    (∀ s body c, dispatch cfg req = .respond s body c →
      s = 400 ∧ body = .err "invalid_json") ∧
    (∀ p k, dispatch cfg req = .streamCall p k → k = clientKeyOf req) ∧
    (∀ p k, dispatch cfg req = .plainCall p k → k = clientKeyOf req) := by
  have hne : clientKeyOf req ≠ "" := by
    intro h
    rw [h] at hk
    exact absurd hk (by decide)
  have hauth : resolveAuth cfg req = .byok (clientKeyOf req) := by
    simp [resolveAuth, hne, hk]
  have hdisp : dispatch cfg req =
      match req.body with
      | none => .respond 400 (.err "invalid_json") true
      | some b =>
        if wantsStream req b then
          .streamCall (withStreamFlags (toOpenRouterPayload cfg req.hdrXOrModel b))
            (clientKeyOf req)
        else .plainCall (toOpenRouterPayload cfg req.hdrXOrModel b) (clientKeyOf req) := by
    simp [dispatch, hm, hp, hauth]
  refine ⟨hauth, ?_, ?_, ?_⟩
  · intro s body c hr
    rw [hdisp] at hr
    cases hb : req.body with
    | none => rw [hb] at hr; exact ⟨(Outcome.respond.injEq _ _ _ _ _ _ ▸ hr).1.symm,
        ((Outcome.respond.injEq _ _ _ _ _ _ ▸ hr).2.1).symm⟩
    | some b =>
      rw [hb] at hr
      by_cases hw : wantsStream req b = true <;> simp [hw] at hr
  · intro p k hr
    rw [hdisp] at hr
    cases hb : req.body with
    | none => rw [hb] at hr; exact absurd hr (by simp)
    | some b =>
      rw [hb] at hr
      by_cases hw : wantsStream req b = true <;> simp [hw] at hr
      exact hr.2.symm
  · intro p k hr
    rw [hdisp] at hr
    cases hb : req.body with
    | none => rw [hb] at hr; exact absurd hr (by simp)
    | some b =>
      rw [hb] at hr
      by_cases hw : wantsStream req b = true <;> simp [hw] at hr
      exact hr.2.symm

/-- Witness: a BYOK request with an `sk-or-` `anthropic-api-key` under
`REQUIRE_PROXY_TOKEN = "1"` and no proxy-token header resolves to BYOK with
that key. -/
theorem byok_key_skips_auth_witness :
    resolveAuth
      { OPENROUTER_API_KEY := "srv", REQUIRE_PROXY_TOKEN := "1",
        PROXY_TOKEN := some "secret" }
      { method := "POST", path := "/v1/messages",
        hdrAnthropicKey := "sk-or-abc", body := some {} }
      = .byok "sk-or-abc" :=
  (byok_key_skips_auth
    { OPENROUTER_API_KEY := "srv", REQUIRE_PROXY_TOKEN := "1",
      PROXY_TOKEN := some "secret" }
    { method := "POST", path := "/v1/messages",
      hdrAnthropicKey := "sk-or-abc", body := some {} }
    rfl rfl (by decide)).1

theorem toAnthropicResponse_usage (cfg : Config) (orjson : ORJson)
    (payload : ORPayload) (est : Int) (n : Nat) :
    (toAnthropicResponse cfg orjson payload est n).1.usage =
      if shouldEstimateUsage cfg
          ∧ (mapUsageFromOpenRouter (orjson.usage.getD {})).input_tokens = 0
          ∧ (mapUsageFromOpenRouter (orjson.usage.getD {})).output_tokens = 0 then
        { input_tokens := est
          output_tokens := (estimateOutputTokensFromText cfg
            (rcontentText ((orjson.choices.head?.getD {}).message.getD {}).content) : Int)
          cache_creation_input_tokens := 0
          cache_read_input_tokens := 0 }
      else mapUsageFromOpenRouter (orjson.usage.getD {}) := rfl

/-- C3: the character-based usage estimate is substituted only when the
mapped upstream input and output token counts are both exactly zero and
estimation is enabled; whenever either mapped count is nonzero, the
response usage is exactly the mapped upstream usage, never overwritten by
the estimate. -/
theorem usage_estimation_never_overwrites (cfg : Config) (orjson : ORJson)
    (payload : ORPayload) (est : Int) (n : Nat) :
    ((mapUsageFromOpenRouter (orjson.usage.getD {})).input_tokens ≠ 0 ∨
        (mapUsageFromOpenRouter (orjson.usage.getD {})).output_tokens ≠ 0 →
      (toAnthropicResponse cfg orjson payload est n).1.usage
        = mapUsageFromOpenRouter (orjson.usage.getD {})) ∧
    ((toAnthropicResponse cfg orjson payload est n).1.usage
        ≠ mapUsageFromOpenRouter (orjson.usage.getD {}) →
      shouldEstimateUsage cfg = true ∧
      (mapUsageFromOpenRouter (orjson.usage.getD {})).input_tokens = 0 ∧
      (mapUsageFromOpenRouter (orjson.usage.getD {})).output_tokens = 0) := by
  rw [toAnthropicResponse_usage]
  by_cases hc : shouldEstimateUsage cfg
      ∧ (mapUsageFromOpenRouter (orjson.usage.getD {})).input_tokens = 0
      ∧ (mapUsageFromOpenRouter (orjson.usage.getD {})).output_tokens = 0
  · rw [if_pos hc]
    exact ⟨fun h => absurd hc (by tauto), fun _ => hc⟩
  · rw [if_neg hc]
    exact ⟨fun _ => rfl, fun h => absurd rfl h⟩

/-- Witness: upstream `prompt_tokens = 37, completion_tokens = 5` survives
translation exactly as `input_tokens = 37, output_tokens = 5`, with
estimation enabled by default. -/
theorem usage_estimation_never_overwrites_witness :
    (toAnthropicResponse {}
        { usage := some { prompt_tokens := some 37, completion_tokens := some 5 } }
        (toOpenRouterPayload {} "" {}) 99 0).1.usage
      = { input_tokens := 37, output_tokens := 5,
          cache_creation_input_tokens := 0, cache_read_input_tokens := 0 } :=
  (usage_estimation_never_overwrites {}
    { usage := some { prompt_tokens := some 37, completion_tokens := some 5 } }
    (toOpenRouterPayload {} "" {}) 99 0).1 (Or.inl (by decide))

theorem toAnthropicResponse_content (cfg : Config) (orjson : ORJson)
    (payload : ORPayload) (est : Int) (n : Nat) :
    (toAnthropicResponse cfg orjson payload est n).1.content =
      (if ((if rcontentText ((orjson.choices.head?.getD {}).message.getD {}).content ≠ ""
            ∧ jsTrim (rcontentText ((orjson.choices.head?.getD {}).message.getD {}).content) ≠ "" then
          [OutBlock.text (rcontentText ((orjson.choices.head?.getD {}).message.getD {}).content)]
        else [])
        ++ (mapToolCalls ((orjson.choices.head?.getD {}).message.getD {}).tool_calls n).1) ≠ [] then
        (if rcontentText ((orjson.choices.head?.getD {}).message.getD {}).content ≠ ""
            ∧ jsTrim (rcontentText ((orjson.choices.head?.getD {}).message.getD {}).content) ≠ "" then
          [OutBlock.text (rcontentText ((orjson.choices.head?.getD {}).message.getD {}).content)]
        else [])
        ++ (mapToolCalls ((orjson.choices.head?.getD {}).message.getD {}).tool_calls n).1
      else [OutBlock.text ""]) := rfl

/-- C8: the content array of every translated client response is
non-empty; in particular, when the upstream message's normalized text is
empty or whitespace-only and it has no tool calls, the content is exactly
one block `\x7btype:"text", text:""\x7d`. -/
theorem response_content_never_empty (cfg : Config) (orjson : ORJson)
    (payload : ORPayload) (est : Int) (n : Nat) :
    (toAnthropicResponse cfg orjson payload est n).1.content ≠ [] ∧
    (jsTrim (rcontentText ((orjson.choices.head?.getD {}).message.getD {}).content) = "" →
      ((orjson.choices.head?.getD {}).message.getD {}).tool_calls = [] →
      (toAnthropicResponse cfg orjson payload est n).1.content = [OutBlock.text ""]) := by
  rw [toAnthropicResponse_content]
  constructor
  · by_cases hb : ((if rcontentText ((orjson.choices.head?.getD {}).message.getD {}).content ≠ ""
          ∧ jsTrim (rcontentText ((orjson.choices.head?.getD {}).message.getD {}).content) ≠ "" then
        [OutBlock.text (rcontentText ((orjson.choices.head?.getD {}).message.getD {}).content)]
      else [])
      ++ (mapToolCalls ((orjson.choices.head?.getD {}).message.getD {}).tool_calls n).1) = []
    · rw [if_neg (by simpa using hb)]
      simp
    · rw [if_pos hb]
      exact hb
  · intro htrim htc
    have h1 : ¬(rcontentText ((orjson.choices.head?.getD {}).message.getD {}).content ≠ ""
        ∧ jsTrim (rcontentText ((orjson.choices.head?.getD {}).message.getD {}).content) ≠ "") := by
      intro h
      exact h.2 htrim
    rw [htc]
    simp [h1, mapToolCalls]

/-- Witness: an upstream message whose content is the whitespace-only
string `"   "` and which has no tool calls yields exactly one empty text
block. -/
theorem response_content_never_empty_witness :
    (toAnthropicResponse {}
        { choices := [{ message := some { content := some (.str "   ") } }] }
        (toOpenRouterPayload {} "" {}) 0 0).1.content
      = [OutBlock.text ""] :=
  (response_content_never_empty {}
    { choices := [{ message := some { content := some (.str "   ") } }] }
    (toOpenRouterPayload {} "" {}) 0 0).2 (by decide) rfl

/-- C2, evaluation at the failing input: an assistant turn with one
tool call (id `"a"`) followed by a user turn carrying a text block
`"hello"` and a tool result whose `tool_use_id` `"zz"` matches no tool-call
id: the translated message list contains only the assistant anchor — the
orphaned tool result's content is dropped (the source folds it into the
turn's user text and then discards that text with a `continue`), and the
user text itself vanishes with it.  The claim says the folded labeled
block must appear in the surrounding user text. -/
theorem orphan_tool_result_dropped_eval :
    (toOpenRouterPayload {} ""
        { messages := [
            ⟨"assistant", .blocks [.toolUse "a" "read" (some (.jstr "arg"))]⟩,
            ⟨"user", .blocks [.text (.jstr "hello"),
                .toolResult "zz" "" (some (.jstr "orphan-output")) none]⟩ ] }).messages
      = [{ role := "assistant", content := none,
           tool_calls := [⟨"a", "read", "arg"⟩],
           tool_call_id := none, name := none }] := by
  decide

/-- C1: for an assistant turn carrying two tool-use blocks with ids
`a`, `b` followed by a user turn carrying matching tool results submitted
in the order `b` then `a`, the translated upstream sequence places the
`tool`-role messages immediately after the anchor assistant message,
ordered as the anchor's tool-call list `a`, `b` — not submission order —
each carrying the tool name resolved from the anchor.  The ids, tool
names, tool inputs and result payloads are universally quantified, as are
the configuration and the override header. -/
theorem tool_results_follow_anchor_order (cfg : Config) (hdr : String)
    (a b n1 n2 : String) (i1 i2 o1 o2 : JVal)
    (ha : a ≠ "") (hb : b ≠ "") (hab : a ≠ b) :
    (toOpenRouterPayload cfg hdr
      { messages := [
          ⟨"assistant", .blocks [.toolUse a n1 (some i1), .toolUse b n2 (some i2)]⟩,
          ⟨"user", .blocks [.toolResult b "" (some o1) none,
                            .toolResult a "" (some o2) none]⟩ ] }).messages
    = [ { role := "assistant", content := none,
          tool_calls := [⟨a, if n1 = "" then "tool" else n1, i1.toText⟩,
                         ⟨b, if n2 = "" then "tool" else n2, i2.toText⟩],
          tool_call_id := none, name := none },
        { role := "tool", content := some o2.toText, tool_calls := [],
          tool_call_id := some a, name := some (if n1 = "" then "tool" else n1) },
        { role := "tool", content := some o1.toText, tool_calls := [],
          tool_call_id := some b, name := some (if n2 = "" then "tool" else n2) } ] := by
  have hab1 : (a == b) = false := beq_eq_false_iff_ne.mpr hab
  have hba1 : (b == a) = false := beq_eq_false_iff_ne.mpr (Ne.symm hab)
  simp [toOpenRouterPayload, buildMessages, processMessage, assistantAcc, userAcc,
        findAnchor, findAnchorAux, splitValid, setAssoc, getAssoc, postNormalize,
        postNormalizeFuel, scrubAfterAssistant, freshId, mkUser, mkSystem,
        List.lookup, List.filter, List.map, ha, hb, hab, Ne.symm hab, hab1, hba1,
        show jsTrim "" = "" from rfl]
  constructor <;> · intro h; split at h <;> simp_all

/-- Witness: ids `"a"`,`"b"` with results submitted `"b"` then `"a"` come
out as `tool` messages in anchor order `"a"`,`"b"` right after the
assistant message. -/
theorem tool_results_follow_anchor_order_witness :
    (toOpenRouterPayload {} ""
      { messages := [
          ⟨"assistant", .blocks [.toolUse "a" "get" (some (.jstr "x")),
                                 .toolUse "b" "put" (some (.jstr "y"))]⟩,
          ⟨"user", .blocks [.toolResult "b" "" (some (.jstr "out-b")) none,
                            .toolResult "a" "" (some (.jstr "out-a")) none]⟩ ] }).messages
    = [ { role := "assistant", content := none,
          tool_calls := [⟨"a", "get", "x"⟩, ⟨"b", "put", "y"⟩],
          tool_call_id := none, name := none },
        { role := "tool", content := some "out-a", tool_calls := [],
          tool_call_id := some "a", name := some "get" },
        { role := "tool", content := some "out-b", tool_calls := [],
          tool_call_id := some "b", name := some "put" } ] :=
  tool_results_follow_anchor_order {} "" "a" "b" "get" "put"
    (.jstr "x") (.jstr "y") (.jstr "out-b") (.jstr "out-a")
    (by decide) (by decide) (by decide)
